import Mathlib

/-!
Shallow embedding of the RAG glue layer of this repository
(src/lib/rag/config.ts, src/lib/rag/advanced-prompting.ts,
src/lib/rag/ragie-client.ts and the orchestrator
`enhancePromptWithRAG`), together with theorems settling the
frozen claims about it.

Modelling conventions:
- JavaScript strings are Lean `String` (ASCII in all relevant data);
  `toLowerCase`, `trim`, `slice`, `includes`, `startsWith` are embedded as
  character-list operations below.
- JavaScript `number` scores are `ℚ` (all literals in the source are exact
  decimals, and every operation performed on them — comparison, `* 0.8`,
  `* 100`, `Math.round`, `Math.ceil` — is exact on the values that occur).
- The external retrieval backend is a parameter `backend`: given the
  query, `topK`, `filter` and `includeMetadata` it either returns a result
  list (`some rs`: the SDK call succeeded) or `none` (the SDK is missing,
  the client exposes neither `retrieve` nor `search`, or the call threw) —
  in which case `safeRetrieve` falls back to the mock data, exactly as in
  the source.  A separate flag `outerFail` models the outer `try/catch` of
  `retrieveContext` firing after the retrieval calls (e.g. the dynamic
  module load failing or the SDK returning a non-array shape), which makes
  the function return mock fallback data directly.
- Fields that JavaScript may leave `undefined` are `Option`s, and the
  source's truthiness tests (`x || d`, `if (x)`) are embedded explicitly.
-/

/-! ### String helpers (embedding of the JS string primitives used) -/

/-- Embedding of `String.prototype.toLowerCase` (ASCII case folding). -/
def lowerStr (s : String) : String := ⟨s.data.map Char.toLower⟩

/-- Embedding of `String.prototype.trim`: drop leading and trailing whitespace. -/
def trimStr (s : String) : String :=
  ⟨((s.data.dropWhile Char.isWhitespace).reverse.dropWhile Char.isWhitespace).reverse⟩

/-- Embedding of `String.prototype.slice(0, n)`. -/
def takeStr (s : String) (n : Nat) : String := ⟨s.data.take n⟩

/-- Does `pat` occur as a contiguous substring of `s`?  (List-level core of
`String.prototype.includes`.) -/
def listHasInfix (pat : List Char) : List Char → Bool
  | [] => pat.isEmpty
  | c :: rest => pat.isPrefixOf (c :: rest) || listHasInfix pat rest

/-- Embedding of `s.includes(pat)` (no case folding; the source lower-cases
explicitly where it does). -/
def containsStr (s pat : String) : Bool := listHasInfix pat.data s.data

/-- Embedding of `s.startsWith(pat)` / an anchored regex `^pat`. -/
def startsWithStr (s pat : String) : Bool := pat.data.isPrefixOf s.data

/-- Embedding of the JS string-valued `x || d` idiom on a possibly-`undefined`
string `x`: `undefined` and the empty string are falsy. -/
def strOr (o : Option String) (d : String) : String :=
  match o with
  | some s => if s = "" then d else s
  | none => d

/-- Embedding of the JS numeric `x || d` idiom on a possibly-`undefined`
score `x`: `undefined` and `0` are falsy. -/
def qOr (o : Option ℚ) (d : ℚ) : ℚ :=
  match o with
  | some s => if s = 0 then d else s
  | none => d

/-- Embedding of `Array.prototype.join(sep)` on an array of strings. -/
def joinSep (sep : String) : List String → String
  | [] => ""
  | [x] => x
  | x :: y :: xs => x ++ sep ++ joinSep sep (y :: xs)

/-! ### Data model (src/lib/rag/config.ts and src/lib/rag/ragie-client.ts) -/

/-- The `formatOptions` field of `RAGConfig` (src/lib/rag/config.ts). -/
structure FormatOptions where
  template : Option String := none
  maxCharsPerDoc : Option Nat := none
  hideSource : Option Bool := none
deriving DecidableEq

/-- Configuration record returned by `getRagConfig` (src/lib/rag/config.ts). -/
structure RAGConfig where
  enabled : Bool
  topK : Nat
  includeMetadata : Bool
  filter : Option (List (String × String)) := none
  formatOptions : Option FormatOptions := none
deriving DecidableEq

/-- The metadata bag attached to retrieval results: the fields this
subsystem reads are `source` and `date` (src/lib/rag/ragie-client.ts). -/
structure Metadata where
  source : Option String := none
  date : Option String := none
deriving DecidableEq

/-- Shape of a raw result coming back from the external backend: the source
tolerates `content` or `text` for the document text, and optional
`metadata` and `score` (src/lib/rag/ragie-client.ts, `safeRetrieve` and the
result-standardising maps). -/
structure RawResult where
  content : Option String := none
  text : Option String := none
  metadata : Option Metadata := none
  score : Option ℚ := none
deriving DecidableEq

/-- The standardized `RetrievalResult` (src/lib/rag/ragie-client.ts).  The
`source` field is the extra `source: 'main_query' | 'expansion_query'`
origin tag the source attaches when standardising (absent on the
error-fallback path). -/
structure RetrievalResult where
  content : String
  metadata : Option Metadata := none
  score : Option ℚ := none
  source : Option String := none
deriving DecidableEq

/-- `RetrievalOptions` (src/lib/rag/ragie-client.ts): `topK`, `filter` and
`includeMetadata` may be omitted; `retrieveContext` destructures them with
defaults `3`, `{}` and `true`. -/
structure RetrievalOptions where
  query : String
  topK : Option Nat := none
  filter : Option (List (String × String)) := none
  includeMetadata : Option Bool := none

/-- One entry of the hard-coded mock knowledge base
(src/lib/rag/ragie-client.ts, `getMockRetrievalResults`); every entry there
has a content string, a metadata bag with `source` and `date`, and a score. -/
structure MockEntry where
  content : String
  source : String
  date : String
  score : ℚ
deriving DecidableEq

/-- Metadata bag of a mock entry. -/
def MockEntry.meta (e : MockEntry) : Metadata :=
  { source := some e.source, date := some e.date }

/-- Mock entries feed `safeRetrieve` in the same raw shape as SDK results. -/
def MockEntry.toRaw (e : MockEntry) : RawResult :=
  { content := some e.content, metadata := some e.meta, score := some e.score }

/-! ### Config classifier (src/lib/rag/config.ts) -/

/-- Default configuration for RAG retrievals (src/lib/rag/config.ts). -/
def DEFAULT_RAG_CONFIG : RAGConfig :=
  { enabled := true
    topK := 3
    includeMetadata := true
    formatOptions := some { maxCharsPerDoc := some 1500, hideSource := some false } }

/-- Embedding of the regex test `/^(hi|hello|hey|what's up|how are you)/i`. -/
def isConversationalQuery (query : String) : Bool :=
  ["hi", "hello", "hey", "what\x27s up", "how are you"].any
    fun p => startsWithStr (lowerStr query) p

/-- Embedding of the regex test
`/(what is|who is|when did|where is|why is|how does)/i`. -/
def isFactualQuery (query : String) : Bool :=
  ["what is", "who is", "when did", "where is", "why is", "how does"].any
    fun p => containsStr (lowerStr query) p

/-- Embedding of the regex test
`/(write|generate|create|build|implement|code|develop)/i`. -/
def isInstructionalQuery (query : String) : Bool :=
  ["write", "generate", "create", "build", "implement", "code", "develop"].any
    fun p => containsStr (lowerStr query) p

/-- Embedding of `getRagConfig` (src/lib/rag/config.ts): cascading
first-match-wins classification. -/
def getRagConfig (query : String) (selectedChatModel : String) : RAGConfig :=
  if isConversationalQuery query then
    { DEFAULT_RAG_CONFIG with enabled := false }
  else if isFactualQuery query then
    { DEFAULT_RAG_CONFIG with topK := 5 }
  else if isInstructionalQuery query then
    { DEFAULT_RAG_CONFIG with
        topK := 4
        formatOptions :=
          some { (DEFAULT_RAG_CONFIG.formatOptions.getD {}) with maxCharsPerDoc := some 2000 } }
  else if selectedChatModel = "chat-model-reasoning" then
    { DEFAULT_RAG_CONFIG with
        includeMetadata := true
        formatOptions :=
          some { (DEFAULT_RAG_CONFIG.formatOptions.getD {}) with hideSource := some false } }
  else DEFAULT_RAG_CONFIG

/-! ### Prompt augmentation (src/lib/rag/advanced-prompting.ts) -/

/-- Does the result's content contain the query, case-insensitively?
(Embedding of `aContent.toLowerCase().includes(query.toLowerCase())` with
`aContent = a.content || ''`, which on a string-typed `content` is just
`a.content`.) -/
def containsQuery (query : String) (r : RetrievalResult) : Bool :=
  containsStr (lowerStr r.content) (lowerStr query)

/-- Score used by the rerank comparator: `x.score || 0`. -/
def scoreOf (r : RetrievalResult) : ℚ := qOr r.score 0

/-- The total preorder induced by the rerank comparator of `rerankResults`
(src/lib/rag/advanced-prompting.ts): `sortLE q a b` holds iff the comparator
returns a non-positive value on `(a, b)`, i.e. a stable sort may keep `a`
no later than `b`. -/
def sortLE (query : String) (a b : RetrievalResult) : Prop :=
  (containsQuery query a = true ∧ containsQuery query b = false) ∨
    (containsQuery query a = containsQuery query b ∧ scoreOf b ≤ scoreOf a)

instance (query : String) : DecidableRel (sortLE query) := fun _ _ => by
  unfold sortLE
  infer_instance

/-- Embedding of `rerankResults` (src/lib/rag/advanced-prompting.ts).
`Array.prototype.sort` is stable (ECMAScript 2019+) and the comparator is a
consistent total preorder, so the sort is embedded as the stable
`insertionSort` by `sortLE`. -/
def rerankResults (query : String) (results : List RetrievalResult) : List RetrievalResult :=
  if results.length ≤ 1 then results
  else List.insertionSort (sortLE query) results

/-- Embedding of `generateQuerySpecificInstructions`
(src/lib/rag/advanced-prompting.ts). -/
def generateQuerySpecificInstructions (query : String) : String :=
  if ["compare", "difference", "similarities", "versus", "vs"].any
      (fun p => containsStr (lowerStr query) p) then
    "\nCOMPARISON INSTRUCTIONS:\n- Create a structured comparison between the items mentioned in the query\n- Include key similarities and differences\n- Use a table format when appropriate\n- Present balanced information about all items being compared"
  else if ["how to", "steps", "guide", "tutorial", "instructions"].any
      (fun p => containsStr (lowerStr query) p) then
    "\nINSTRUCTIONAL CONTENT GUIDELINES:\n- Provide clear step-by-step instructions\n- Number each step\n- Include important cautions or warnings\n- Add examples where helpful\n- Consider both beginners and more experienced users"
  else if ["code", "function", "program", "implement", "script"].any
      (fun p => containsStr (lowerStr query) p) then
    "\nCODE GENERATION GUIDELINES:\n- Write clean, well-commented code\n- Include explanations for complex logic\n- Consider edge cases and error handling\n- Optimize for readability and maintainability\n- Provide usage examples where appropriate"
  else if ["summarize", "summary", "overview", "brief"].any
      (fun p => containsStr (lowerStr query) p) then
    "\nSUMMARIZATION GUIDELINES:\n- Extract the key points from the context\n- Be concise but comprehensive\n- Structure the summary logically\n- Maintain the original meaning and intent\n- Highlight the most important information"
  else ""

/-- Embedding of `query.replace(/\?$/, '')`: strip one trailing question mark. -/
def stripTrailingQuestionMark (q : String) : String :=
  if q.data.getLast? = some '?' then ⟨q.data.dropLast⟩ else q

/-- Embedding of `generateExpansionQuery` (src/lib/rag/advanced-prompting.ts). -/
def generateExpansionQuery (originalQuery : String) : String :=
  if ["what", "when", "where", "why", "who", "how"].any
      (fun w => startsWithStr (lowerStr originalQuery) w) then
    "background information " ++ stripTrailingQuestionMark originalQuery
  else
    "what is " ++ originalQuery

/-- The fixed tail of the `createEnhancedRAGPrompt` template literal: the
"INSTRUCTIONS FOR USING CONTEXT" and "RESPONSE QUALITY GUIDELINES" blocks. -/
def ragUsageGuidelines : String :=
  "\n\nINSTRUCTIONS FOR USING CONTEXT:\n1. Use the retrieved context to provide accurate and informed responses\n2. Prioritize information from the context when directly relevant to the query\n3. Always evaluate the reliability and relevance of the context information\n4. When citing information from the context, indicate the source if available\n5. If the context is insufficient, use your general knowledge to supplement\n6. Do not invent or hallucinate information that\x27s not in the context or your knowledge\n7. If asked about the source of information, be transparent about whether it came from the retrieved context\n\nRESPONSE QUALITY GUIDELINES:\n- Be thorough but concise\n- Structure your response logically with appropriate headings if needed\n- Use examples when they aid understanding\n- Consider different perspectives when appropriate\n- Focus on answering the user\x27s actual needs, not just the literal query\n- If the user\x27s question is unclear, request clarification\n"

/-- Embedding of `createEnhancedRAGPrompt` (src/lib/rag/advanced-prompting.ts):
the exact template-literal concatenation. -/
def createEnhancedRAGPrompt (basePrompt userQuery retrievedContext : String) : String :=
  basePrompt ++ "\n\nRETRIEVED CONTEXT:\n" ++ retrievedContext ++ "\n\n" ++
    generateQuerySpecificInstructions userQuery ++ ragUsageGuidelines

/-! ### Retrieval client (src/lib/rag/ragie-client.ts) -/

/-- The eight-entry mock knowledge base of `getMockRetrievalResults`. -/
def mockKb : List MockEntry :=
  [ { content := "RAG (Retrieval Augmented Generation) is a technique that enhances LLM outputs by retrieving relevant information from external knowledge sources before generating a response. This helps ground the model\x27s responses in factual, up-to-date information."
      source := "RAG Documentation", date := "2023-10-15", score := 0.92 }
  , { content := "Prompt engineering is the practice of designing and optimizing input prompts for language models to elicit desired responses. Effective prompt engineering improves output quality, reduces hallucinations, and helps control model behavior."
      source := "AI Best Practices Guide", date := "2023-09-22", score := 0.87 }
  , { content := "A common RAG architecture includes: 1) an embedding model to convert documents and queries into vector representations, 2) a vector database for storing and retrieving document embeddings, 3) a retrieval mechanism to find relevant documents, and 4) an LLM to generate responses based on retrieved context."
      source := "RAG Architecture Guide", date := "2023-11-05", score := 0.85 }
  , { content := "Chatbots using RAG show significant improvements in factual accuracy compared to those relying solely on pre-trained knowledge. In a recent study, RAG-enhanced chatbots reduced hallucinations by 45% and improved factual accuracy by 37%."
      source := "AI Performance Study", date := "2024-01-18", score := 0.81 }
  , { content := "When implementing RAG, it\x27s important to consider: 1) chunking strategy for breaking documents into manageable pieces, 2) embedding model selection for vector representations, 3) retrieval mechanism for finding relevant context, and 4) prompt design for effectively using the retrieved information."
      source := "RAG Implementation Guide", date := "2023-12-10", score := 0.78 }
  , { content := "The ragie SDK provides retrieval capabilities with a simple API. It allows you to retrieve relevant context from your knowledge base using vector search and semantic matching."
      source := "Ragie SDK Documentation", date := "2023-11-30", score := 0.91 }
  , { content := "To implement effective RAG systems, focus on the quality of your retrieval mechanism first. Even the best language models will generate incorrect information if the retrieved context is poor or irrelevant."
      source := "RAG Best Practices", date := "2024-02-15", score := 0.83 }
  , { content := "When designing prompts for RAG systems, include clear instructions on how the model should use the retrieved information. For example, specify whether the model should prioritize retrieved information over its pre-trained knowledge."
      source := "Prompt Engineering for RAG", date := "2023-12-05", score := 0.89 } ]

/-- The two weather-specific mock entries. -/
def mockWeatherEntries : List MockEntry :=
  [ { content := "The weather system integration allows chatbots to retrieve current weather information for a specific location. This provides real-time, accurate weather data to users."
      source := "Weather API Integration Guide", date := "2024-01-10", score := 0.95 }
  , { content := "Weather data can be accessed through various APIs like OpenWeatherMap, WeatherAPI, or government meteorological services. Most provide current conditions, forecasts, and historical data."
      source := "API Documentation", date := "2023-11-20", score := 0.88 } ]

/-- The two document/artifact-specific mock entries. -/
def mockDocumentEntries : List MockEntry :=
  [ { content := "The document creation tool allows chatbots to generate and manage various types of documents like text files, code snippets, and structured data. These documents can be edited, saved, and shared."
      source := "Document Tool Documentation", date := "2024-01-05", score := 0.94 }
  , { content := "Artifact-based UI components enhance chatbot functionality by providing dedicated interfaces for different content types. This improves user experience by displaying information in the most appropriate format."
      source := "UI Component Guide", date := "2023-12-18", score := 0.89 } ]

/-- Embedding of `getMockRetrievalResults` (src/lib/rag/ragie-client.ts). -/
def getMockRetrievalResults (query : String) : List MockEntry :=
  let normalizedQuery := lowerStr query
  if containsStr normalizedQuery "weather" then mockWeatherEntries
  else if containsStr normalizedQuery "document" || containsStr normalizedQuery "artifact" then
    mockDocumentEntries
  else
    (mockKb.filter fun entry =>
      containsStr (lowerStr entry.content) normalizedQuery ||
        containsStr normalizedQuery "rag" ||
        containsStr (lowerStr entry.source) "rag").take 3

/-- Model of the external backend: the response of `client.retrieve` /
`client.search` to one call, or `none` when the call is unavailable or
throws (every such case is handled identically by `safeRetrieve`). -/
abbrev Backend : Type :=
  String → Nat → List (String × String) → Bool → Option (List RawResult)

/-- Embedding of the inner `safeRetrieve` closure of `retrieveContext`. -/
def safeRetrieve (backend : Backend) (filter : List (String × String))
    (includeMetadata : Bool) (q : String) (k : Nat) : List RawResult :=
  match backend q k filter includeMetadata with
  | some rs => rs
  | none => (getMockRetrievalResults q).map MockEntry.toRaw

/-- Standardisation of a main-query raw result (src/lib/rag/ragie-client.ts,
the `mainFormattedResults` map). -/
def formatMainResult (includeMetadata : Bool) (r : RawResult) : RetrievalResult :=
  { content := strOr r.content (strOr r.text "")
    metadata := if includeMetadata then r.metadata else none
    score := some (qOr r.score 0.9)
    source := some "main_query" }

/-- Standardisation of an expansion-query raw result
(src/lib/rag/ragie-client.ts, the `expansionFormattedResults` map). -/
def formatExpansionResult (includeMetadata : Bool) (r : RawResult) : RetrievalResult :=
  { content := strOr r.content (strOr r.text "")
    metadata := if includeMetadata then r.metadata else none
    score := some (qOr r.score 0.7 * 0.8)
    source := some "expansion_query" }

/-- Embedding of `Math.ceil` applied to a rational. -/
def jsCeilToNat (q : ℚ) : Nat := (Rat.ceil q).toNat

/-- The combined, standardised result list `allResults` of `retrieveContext`:
main-query results (requested at `Math.ceil(topK * 0.7)`) followed by
expansion-query results (requested at `Math.ceil(topK * 0.5)`). -/
def combinedResults (backend : Backend) (options : RetrievalOptions) : List RetrievalResult :=
  let topK := options.topK.getD 3
  let filter := options.filter.getD []
  let includeMetadata := options.includeMetadata.getD true
  let expansionQuery := generateExpansionQuery options.query
  let mainResults :=
    safeRetrieve backend filter includeMetadata options.query (jsCeilToNat ((topK : ℚ) * 0.7))
  let expansionResults :=
    safeRetrieve backend filter includeMetadata expansionQuery (jsCeilToNat ((topK : ℚ) * 0.5))
  mainResults.map (formatMainResult includeMetadata) ++
    expansionResults.map (formatExpansionResult includeMetadata)

/-- The dedup key of `removeDuplicateResults`:
`result.content.slice(0, 100).trim().toLowerCase()`. -/
def duplicateKey (r : RetrievalResult) : String :=
  lowerStr (trimStr (takeStr r.content 100))

/-- Embedding of the `seen`-set loop of `removeDuplicateResults`
(src/lib/rag/ragie-client.ts); `seen` is carried as a list of keys. -/
def removeDupAux (seen : List String) : List RetrievalResult → List RetrievalResult
  | [] => []
  | r :: rs =>
    if duplicateKey r ∈ seen then removeDupAux seen rs
    else r :: removeDupAux (duplicateKey r :: seen) rs

/-- Embedding of `removeDuplicateResults` (src/lib/rag/ragie-client.ts). -/
def removeDuplicateResults (results : List RetrievalResult) : List RetrievalResult :=
  removeDupAux [] results

/-- Rendering of one result by `formatRetrievedContext`
(src/lib/rag/ragie-client.ts): the `metadataString` is built only when
`result.metadata` is present; the date parenthetical only when `date` is
truthy; the relevance line only when `result.score !== undefined`. -/
def formatDoc (index : Nat) (result : RetrievalResult) : String :=
  let metadataString :=
    match result.metadata with
    | none => ""
    | some m =>
      let withSource := "\nSource: " ++ strOr m.source "Unknown"
      let withDate :=
        match m.date with
        | some d => if d = "" then withSource else withSource ++ " (" ++ d ++ ")"
        | none => withSource
      match result.score with
      | some sc => withDate ++ "\nRelevance: " ++ toString (round (sc * 100)) ++ "%"
      | none => withDate
  "[Document " ++ toString (index + 1) ++ "]:\n" ++ result.content ++ metadataString

/-- The indexed map underlying `formatRetrievedContext`. -/
def formatDocsFrom (index : Nat) : List RetrievalResult → List String
  | [] => []
  | r :: rs => formatDoc index r :: formatDocsFrom (index + 1) rs

/-- Embedding of `formatRetrievedContext` (src/lib/rag/ragie-client.ts). -/
def formatRetrievedContext (retrievalResults : List RetrievalResult) : String :=
  if retrievalResults = [] then ""
  else joinSep "\n\n" (formatDocsFrom 0 retrievalResults)

/-- Embedding of `retrieveContext` (src/lib/rag/ragie-client.ts).
`outerFail = true` models the outer `catch` firing, in which case the mock
results for the query are returned directly (note: without the `topK` cap
and without the origin tag). -/
def retrieveContext (backend : Backend) (outerFail : Bool)
    (options : RetrievalOptions) : List RetrievalResult :=
  let includeMetadata := options.includeMetadata.getD true
  if outerFail then
    (getMockRetrievalResults options.query).map fun e =>
      { content := e.content
        metadata := if includeMetadata then some e.meta else none
        score := some e.score }
  else
    (rerankResults options.query
        (removeDuplicateResults (combinedResults backend options))).take (options.topK.getD 3)

/-! ### Orchestrator (`enhancePromptWithRAG`) -/

/-- One entry of a UI message's `parts` array: only `type` and `text` are
consulted here. -/
structure MessagePart where
  type : String
  text : Option String := none

/-- Consumed shape of a conversation message: `role`, optional string
`content`, optional `parts`. -/
structure UIMessage where
  role : String
  content : Option String := none
  parts : Option (List MessagePart) := none

/-- Request hints passed through to `enhancePromptWithRAG`; the function
never reads them, so the type is opaque here. -/
structure RequestHints where
  mk ::

/-- Embedding of `extractQueryFromMessage` (orchestrator module): a string
`content` wins (even when empty); otherwise the `text`-typed parts are
joined with single spaces (JS `join` renders a missing `text` as `""`);
otherwise the empty string. -/
def extractQueryFromMessage (message : UIMessage) : String :=
  match message.content with
  | some c => c
  | none =>
    match message.parts with
    | some parts =>
      let textParts := parts.filter fun part => part.type = "text"
      if textParts.length > 0 then
        joinSep " " (textParts.map fun part => part.text.getD "")
      else ""
    | none => ""

/-- The `retrievalOptions` record `enhancePromptWithRAG` builds from the
RAG config of the extracted query (orchestrator module). -/
def orchestratorOptions (m : UIMessage) (selectedChatModel : String) : RetrievalOptions :=
  { query := extractQueryFromMessage m
    topK := some (getRagConfig (extractQueryFromMessage m) selectedChatModel).topK
    filter := (getRagConfig (extractQueryFromMessage m) selectedChatModel).filter
    includeMetadata := some (getRagConfig (extractQueryFromMessage m) selectedChatModel).includeMetadata }

/-- Embedding of `enhancePromptWithRAG` (orchestrator module).  The JS
default for `selectedChatModel` is `"chat-model"`; callers here always pass
it explicitly.  The source's intermediate `let` bindings are inlined. -/
def enhancePromptWithRAG (backend : Backend) (outerFail : Bool)
    (systemPromptText : String) (messages : List UIMessage)
    (_requestHints : RequestHints) (selectedChatModel : String) : String :=
  match (messages.filter fun msg => msg.role = "user").getLast? with
  | none => systemPromptText
  | some userMessage =>
    if extractQueryFromMessage userMessage = "" then systemPromptText
    else if !(getRagConfig (extractQueryFromMessage userMessage) selectedChatModel).enabled then
      systemPromptText
    else if retrieveContext backend outerFail
        (orchestratorOptions userMessage selectedChatModel) = [] then
      systemPromptText
    else if formatRetrievedContext (retrieveContext backend outerFail
        (orchestratorOptions userMessage selectedChatModel)) = "" then
      systemPromptText
    else
      createEnhancedRAGPrompt systemPromptText (extractQueryFromMessage userMessage)
        (formatRetrievedContext (retrieveContext backend outerFail
          (orchestratorOptions userMessage selectedChatModel)))

/-! ### Definitions modelled from the claims, and counterexample fixtures -/

/-- Modelled from the words of claim C5: the deduplication key obtained by
trimming and lower-casing the content first and then taking the first 100
characters.  (The source instead takes the slice first:
`content.slice(0, 100).trim().toLowerCase()`, embedded as `duplicateKey`.) -/
def specDuplicateKey (r : RetrievalResult) : String :=
  takeStr (lowerStr (trimStr r.content)) 100

/-- Modelled from the words of claim C7: one result rendered as
"[Document N]:", the content, a "Source: <source> (<date>)" line and a
"Relevance: <score*100 rounded>%" line. -/
def specRenderDoc (index : Nat) (r : RetrievalResult) : String :=
  "[Document " ++ toString (index + 1) ++ "]:\n" ++ r.content ++
    "\nSource: " ++ (r.metadata.bind Metadata.source).getD "" ++
    " (" ++ (r.metadata.bind Metadata.date).getD "" ++ ")" ++
    "\nRelevance: " ++ toString (round (r.score.getD 0 * 100)) ++ "%"

/-- The claim-C7 rendering applied along a list, numbering from `index`. -/
def specRenderFrom (index : Nat) : List RetrievalResult → List String
  | [] => []
  | r :: rs => specRenderDoc index r :: specRenderFrom (index + 1) rs

/-- The equivalence class of a result under the rerank comparator: its
contains-the-query flag together with its effective score. -/
def rerankClass (query : String) (r : RetrievalResult) : Bool × ℚ :=
  (containsQuery query r, scoreOf r)

/-- Backend for the C4 counterexample: the main query "z" yields two results
whose scores are in ascending order, and every other query yields nothing. -/
def cex4Backend : Backend := fun q _ _ _ =>
  if q = "z" then
    some [ { content := some "a", score := some 0.1 },
           { content := some "b", score := some 0.9 } ]
  else some []

/-- First content string of the C5 counterexample: a space followed by one
hundred times the letter a. -/
def cex5ContentA : String := ⟨' ' :: List.replicate 100 'a'⟩

/-- Second content string of the C5 counterexample: one hundred times the
letter a followed by the letter x. -/
def cex5ContentB : String := ⟨List.replicate 100 'a' ++ ['x']⟩

/-- Backend for the C5 counterexample: the main query "zz" yields the two
contents above with descending scores. -/
def cex5Backend : Backend := fun q _ _ _ =>
  if q = "zz" then
    some [ { content := some cex5ContentA, score := some 0.5 },
           { content := some cex5ContentB, score := some 0.4 } ]
  else some []

/-- The first standardised result produced by `cex5Backend`. -/
def cex5ResultA : RetrievalResult :=
  { content := cex5ContentA, metadata := none, score := some 0.5, source := some "main_query" }

/-- The second standardised result produced by `cex5Backend`. -/
def cex5ResultB : RetrievalResult :=
  { content := cex5ContentB, metadata := none, score := some 0.4, source := some "main_query" }

/-- A fully-populated result used to witness the C7 rendering equation. -/
def c7WitnessResult : RetrievalResult :=
  { content := "Content body"
    metadata := some { source := some "Doc Source", date := some "2024-01-01" }
    score := some 0.75 }

/-! ### General lemmas about the embedding -/

/-- Every run of `enhancePromptWithRAG` either short-circuits to the original
prompt or ends in the `createEnhancedRAGPrompt` branch with all four branch
conditions false. -/
theorem enhancePromptWithRAG_cases (backend : Backend) (outerFail : Bool)
    (systemPromptText : String) (messages : List UIMessage) (hints : RequestHints)
    (selectedChatModel : String) :
    enhancePromptWithRAG backend outerFail systemPromptText messages hints selectedChatModel
        = systemPromptText ∨
      ∃ m, (messages.filter fun msg => msg.role = "user").getLast? = some m ∧
        extractQueryFromMessage m ≠ "" ∧
        (getRagConfig (extractQueryFromMessage m) selectedChatModel).enabled = true ∧
        retrieveContext backend outerFail (orchestratorOptions m selectedChatModel) ≠ [] ∧
        formatRetrievedContext
            (retrieveContext backend outerFail (orchestratorOptions m selectedChatModel)) ≠ "" ∧
        enhancePromptWithRAG backend outerFail systemPromptText messages hints selectedChatModel
          = createEnhancedRAGPrompt systemPromptText (extractQueryFromMessage m)
              (formatRetrievedContext
                (retrieveContext backend outerFail (orchestratorOptions m selectedChatModel))) := by
  unfold enhancePromptWithRAG
  cases hm : (messages.filter fun msg => msg.role = "user").getLast? with
  | none => exact Or.inl rfl
  | some m =>
    by_cases h1 : extractQueryFromMessage m = ""
    · exact Or.inl (by simp [h1])
    · by_cases h2 : (getRagConfig (extractQueryFromMessage m) selectedChatModel).enabled
      · by_cases h3 :
            retrieveContext backend outerFail (orchestratorOptions m selectedChatModel) = []
        · exact Or.inl (by simp [h1, h2, h3])
        · by_cases h4 : formatRetrievedContext
              (retrieveContext backend outerFail (orchestratorOptions m selectedChatModel)) = ""
          · exact Or.inl (by simp [h1, h2, h3, h4])
          · exact Or.inr ⟨m, rfl, h1, h2, h3, h4, by simp [h1, h2, h3, h4]⟩
      · exact Or.inl (by simp [h1, h2])

/-- Unfolding of string concatenation to character lists. -/
theorem str_data_append (a b : String) : (a ++ b).data = a.data ++ b.data := rfl

/-- A concatenation whose right part is nonempty is nonempty. -/
theorem str_append_ne_empty_right (a b : String) (hb : b ≠ "") : a ++ b ≠ "" := by
  intro h
  apply hb
  have hdata : a.data ++ b.data = [] := by
    have := congrArg String.data h
    rwa [str_data_append] at this
  rcases List.append_eq_nil.mp hdata with ⟨-, h2⟩
  cases b
  simp_all

/-- The fixed guideline block of `createEnhancedRAGPrompt` is nonempty, so the
enhanced prompt strictly extends the base prompt. -/
theorem createEnhancedRAGPrompt_decomp (basePrompt userQuery retrievedContext : String) :
    ∃ rest, rest ≠ "" ∧
      createEnhancedRAGPrompt basePrompt userQuery retrievedContext
        = basePrompt ++ "\n\nRETRIEVED CONTEXT:\n" ++ rest := by
  refine ⟨retrievedContext ++ "\n\n" ++ generateQuerySpecificInstructions userQuery ++
      ragUsageGuidelines, ?_, ?_⟩
  · exact str_append_ne_empty_right _ _ (by decide)
  · simp only [createEnhancedRAGPrompt, String.append_assoc]

/-! ### Claim C1 -/

/-- Claim C1: for every system prompt, message history, hints and model,
`enhancePromptWithRAG` returns the system prompt itself on each
short-circuit path: no message with role "user" in the history, empty
extracted query text of the last user message, retrieval disabled by
`getRagConfig` for the query, zero results from `retrieveContext`, and an
empty formatted context string. -/
theorem claim_C1_short_circuit_identity (backend : Backend) (outerFail : Bool)
    (systemPromptText : String) (messages : List UIMessage) (hints : RequestHints)
    (selectedChatModel : String) :
    ((messages.filter fun msg => msg.role = "user").getLast? = none →
      enhancePromptWithRAG backend outerFail systemPromptText messages hints selectedChatModel
        = systemPromptText) ∧
    (∀ m, (messages.filter fun msg => msg.role = "user").getLast? = some m →
      extractQueryFromMessage m = "" →
      enhancePromptWithRAG backend outerFail systemPromptText messages hints selectedChatModel
        = systemPromptText) ∧
    (∀ m, (messages.filter fun msg => msg.role = "user").getLast? = some m →
      (getRagConfig (extractQueryFromMessage m) selectedChatModel).enabled = false →
      enhancePromptWithRAG backend outerFail systemPromptText messages hints selectedChatModel
        = systemPromptText) ∧
    (∀ m, (messages.filter fun msg => msg.role = "user").getLast? = some m →
      retrieveContext backend outerFail (orchestratorOptions m selectedChatModel) = [] →
      enhancePromptWithRAG backend outerFail systemPromptText messages hints selectedChatModel
        = systemPromptText) ∧
    (∀ m, (messages.filter fun msg => msg.role = "user").getLast? = some m →
      formatRetrievedContext
          (retrieveContext backend outerFail (orchestratorOptions m selectedChatModel)) = "" →
      enhancePromptWithRAG backend outerFail systemPromptText messages hints selectedChatModel
        = systemPromptText) := by
  rcases enhancePromptWithRAG_cases backend outerFail systemPromptText messages hints
      selectedChatModel with h | ⟨m, hm, hq, hen, hres, hfmt, -⟩
  · exact ⟨fun _ => h, fun _ _ _ => h, fun _ _ _ => h, fun _ _ _ => h, fun _ _ _ => h⟩
  · refine ⟨?_, ?_, ?_, ?_, ?_⟩
    · intro h0
      rw [h0] at hm
      cases hm
    · intro m' hm' hq'
      rw [hm] at hm'
      cases Option.some.inj hm'
      exact absurd hq' hq
    · intro m' hm' hen'
      rw [hm] at hm'
      cases Option.some.inj hm'
      rw [hen] at hen'
      cases hen'
    · intro m' hm' hres'
      rw [hm] at hm'
      cases Option.some.inj hm'
      exact absurd hres' hres
    · intro m' hm' hfmt'
      rw [hm] at hm'
      cases Option.some.inj hm'
      exact absurd hfmt' hfmt

/-- Witness for C1: a history with no user message leaves the concrete prompt
unchanged. -/
theorem claim_C1_short_circuit_identity_witness :
    enhancePromptWithRAG (fun _ _ _ _ => none) false "base prompt"
        [{ role := "assistant", content := some "hi there" }] {} "chat-model"
      = "base prompt" :=
  (claim_C1_short_circuit_identity (fun _ _ _ _ => none) false "base prompt"
    [{ role := "assistant", content := some "hi there" }] {} "chat-model").1 rfl

/-! ### Claim C9 -/

/-- Claim C9: the orchestrator's output either equals the system prompt
exactly, or has the system prompt as a proper prefix immediately followed by
a blank line and the line "RETRIEVED CONTEXT:"; the prompt text is never
altered or truncated. -/
theorem claim_C9_output_shape (backend : Backend) (outerFail : Bool)
    (systemPromptText : String) (messages : List UIMessage) (hints : RequestHints)
    (selectedChatModel : String) :
    enhancePromptWithRAG backend outerFail systemPromptText messages hints selectedChatModel
        = systemPromptText ∨
      ∃ rest, rest ≠ "" ∧
        enhancePromptWithRAG backend outerFail systemPromptText messages hints selectedChatModel
          = systemPromptText ++ "\n\nRETRIEVED CONTEXT:\n" ++ rest := by
  rcases enhancePromptWithRAG_cases backend outerFail systemPromptText messages hints
      selectedChatModel with h | ⟨m, -, -, -, -, -, heq⟩
  · exact Or.inl h
  · rcases createEnhancedRAGPrompt_decomp systemPromptText (extractQueryFromMessage m)
        (formatRetrievedContext
          (retrieveContext backend outerFail (orchestratorOptions m selectedChatModel)))
      with ⟨rest, hne, hdec⟩
    exact Or.inr ⟨rest, hne, heq.trans hdec⟩

/-! ### Claim C10 -/

/-- Claim C10: every configuration produced by `getRagConfig` has
`includeMetadata = true` and a `topK` among 3, 4, 5; no input can switch
metadata inclusion off. -/
theorem claim_C10_config_invariants (query selectedChatModel : String) :
    (getRagConfig query selectedChatModel).includeMetadata = true ∧
      ((getRagConfig query selectedChatModel).topK = 3 ∨
        (getRagConfig query selectedChatModel).topK = 4 ∨
        (getRagConfig query selectedChatModel).topK = 5) := by
  unfold getRagConfig
  split
  · exact ⟨rfl, Or.inl rfl⟩
  split
  · exact ⟨rfl, Or.inr (Or.inr rfl)⟩
  split
  · exact ⟨rfl, Or.inr (Or.inl rfl)⟩
  split
  · exact ⟨rfl, Or.inl rfl⟩
  · exact ⟨rfl, Or.inl rfl⟩

/-! ### Claim C2 -/

/-- Claim C2: `getRagConfig` applies the first matching rule in order:
greeting pattern disables retrieval; otherwise factual pattern gives
`topK = 5`; otherwise instructional pattern gives `topK = 4` and
`maxCharsPerDoc = 2000`; otherwise the reasoning model id forces
`includeMetadata = true` and `hideSource = false`; otherwise the default
config applies (enabled, topK = 3, includeMetadata = true,
maxCharsPerDoc = 1500). -/
theorem claim_C2_config_rule_order (query selectedChatModel : String) :
    (isConversationalQuery query = true →
      (getRagConfig query selectedChatModel).enabled = false) ∧
    (isConversationalQuery query = false → isFactualQuery query = true →
      (getRagConfig query selectedChatModel).topK = 5) ∧
    (isConversationalQuery query = false → isFactualQuery query = false →
      isInstructionalQuery query = true →
      (getRagConfig query selectedChatModel).topK = 4 ∧
        (getRagConfig query selectedChatModel).formatOptions.bind
            (fun fo => fo.maxCharsPerDoc) = some 2000) ∧
    (isConversationalQuery query = false → isFactualQuery query = false →
      isInstructionalQuery query = false → selectedChatModel = "chat-model-reasoning" →
      (getRagConfig query selectedChatModel).includeMetadata = true ∧
        (getRagConfig query selectedChatModel).formatOptions.bind
            (fun fo => fo.hideSource) = some false) ∧
    (isConversationalQuery query = false → isFactualQuery query = false →
      isInstructionalQuery query = false → selectedChatModel ≠ "chat-model-reasoning" →
      (getRagConfig query selectedChatModel).enabled = true ∧
        (getRagConfig query selectedChatModel).topK = 3 ∧
        (getRagConfig query selectedChatModel).includeMetadata = true ∧
        (getRagConfig query selectedChatModel).formatOptions.bind
            (fun fo => fo.maxCharsPerDoc) = some 1500) := by
  refine ⟨?_, ?_, ?_, ?_, ?_⟩
  · intro h1
    simp [getRagConfig, h1]
  · intro h1 h2
    simp [getRagConfig, h1, h2]
  · intro h1 h2 h3
    simp [getRagConfig, h1, h2, h3, DEFAULT_RAG_CONFIG]
  · intro h1 h2 h3 h4
    simp [getRagConfig, h1, h2, h3, h4, DEFAULT_RAG_CONFIG]
  · intro h1 h2 h3 h4
    simp [getRagConfig, h1, h2, h3, h4, DEFAULT_RAG_CONFIG]

/-- Witness for C2 at concrete inputs: "hello" is a greeting, "what is RAG?"
is factual, "write a poem" is instructional, and "tell me about dogs" with
the reasoning model hits the reasoning rule. -/
theorem claim_C2_config_rule_order_witness :
    (getRagConfig "hello" "chat-model").enabled = false ∧
      (getRagConfig "what is RAG?" "chat-model").topK = 5 ∧
      (getRagConfig "write a poem" "chat-model").topK = 4 ∧
      (getRagConfig "tell me about dogs" "chat-model-reasoning").includeMetadata = true ∧
      (getRagConfig "tell me about dogs" "chat-model").topK = 3 :=
  ⟨(claim_C2_config_rule_order "hello" "chat-model").1 (by decide),
    ((claim_C2_config_rule_order "what is RAG?" "chat-model").2.1 (by decide) (by decide)),
    ((claim_C2_config_rule_order "write a poem" "chat-model").2.2.1 (by decide) (by decide)
      (by decide)).1,
    ((claim_C2_config_rule_order "tell me about dogs" "chat-model-reasoning").2.2.2.1
      (by decide) (by decide) (by decide) rfl).1,
    ((claim_C2_config_rule_order "tell me about dogs" "chat-model").2.2.2.2
      (by decide) (by decide) (by decide) (by decide)).2.1⟩

/-! ### Reduction lemmas for `retrieveContext` and the mock fallback -/

/-- On the non-exceptional path, `retrieveContext` is rerank-after-dedup
followed by the `topK` cut. -/
theorem retrieveContext_success (backend : Backend) (options : RetrievalOptions) :
    retrieveContext backend false options =
      (rerankResults options.query
        (removeDuplicateResults (combinedResults backend options))).take
          (options.topK.getD 3) := rfl

/-- On the outer-catch path, `retrieveContext` returns the mock results
directly, with no `topK` cut. -/
theorem retrieveContext_outer_fallback (backend : Backend) (options : RetrievalOptions) :
    retrieveContext backend true options =
      (getMockRetrievalResults options.query).map (fun e =>
        { content := e.content
          metadata := if options.includeMetadata.getD true then some e.meta else none
          score := some e.score }) := rfl

/-- The mock knowledge-base lookup never returns more than 3 entries. -/
theorem getMockRetrievalResults_length_le (query : String) :
    (getMockRetrievalResults query).length ≤ 3 := by
  unfold getMockRetrievalResults
  dsimp only
  split
  · decide
  · split
    · decide
    · exact List.length_take_le 3 _

/-- The rerank step permutes its input. -/
theorem rerank_perm (query : String) (results : List RetrievalResult) :
    (rerankResults query results).Perm results := by
  unfold rerankResults
  split
  · exact List.Perm.refl _
  · exact List.perm_insertionSort _ _

/-! ### Claim C3 -/

set_option maxRecDepth 100000 in
unseal Rat.mul Rat.inv Rat.add Rat.sub Rat.ofScientific in
/-- Counterexample to C3 as stated: with `topK = 1` and the outer catch of
`retrieveContext` firing (backend unavailable in a way that reaches the
outer handler), the mock fallback for "what is RAG?" returns 3 entries,
exceeding `topK`. -/
theorem claim_C3_counterexample :
    (retrieveContext (fun _ _ _ _ => none) true
        { query := "what is RAG?", topK := some 1 }).length = 3 ∧
      ¬ (retrieveContext (fun _ _ _ _ => none) true
        { query := "what is RAG?", topK := some 1 }).length ≤ 1 := by
  constructor
  · rw [retrieveContext_outer_fallback, List.length_map]
    decide
  · rw [retrieveContext_outer_fallback, List.length_map]
    decide

/-- Claim C3 amended: on the non-exceptional path the output of
`retrieveContext` has at most `topK` entries; on the error-fallback path it
has at most 3 entries (the mock cap), hence in all cases at most
`max topK 3` — but not at most `topK` when `topK < 3` and the outer
fallback fires. -/
theorem claim_C3_capped (backend : Backend) (outerFail : Bool) (options : RetrievalOptions) :
    (outerFail = false →
      (retrieveContext backend outerFail options).length ≤ options.topK.getD 3) ∧
    (retrieveContext backend outerFail options).length ≤ max (options.topK.getD 3) 3 := by
  constructor
  · rintro rfl
    rw [retrieveContext_success]
    exact List.length_take_le _ _
  · cases outerFail
    · rw [retrieveContext_success]
      exact (List.length_take_le _ _).trans (le_max_left _ _)
    · rw [retrieveContext_outer_fallback, List.length_map]
      exact (getMockRetrievalResults_length_le _).trans (le_max_right _ _)

/-- Witness for C3 amended: on a successful path with default options,
the output length is at most the default `topK = 3`. -/
theorem claim_C3_capped_witness :
    (retrieveContext (fun _ _ _ _ => none) false { query := "hello" }).length ≤ 3 :=
  (claim_C3_capped (fun _ _ _ _ => none) false { query := "hello" }).1 rfl

/-! ### Claim C4 -/

set_option maxRecDepth 100000 in
unseal Rat.mul Rat.inv Rat.add Rat.sub Rat.ofScientific in
/-- Counterexample to C4 as stated: the output of `retrieveContext` is not
the `topK`-prefix of the deduplicated concatenation, because the rerank step
reorders (here: by descending score) between deduplication and truncation. -/
theorem claim_C4_counterexample :
    retrieveContext cex4Backend false { query := "z" } ≠
      (removeDuplicateResults (combinedResults cex4Backend { query := "z" })).take 3 := by
  decide

/-- Claim C4 amended: the returned list is the `topK`-prefix of the
*reranked* deduplicated concatenation — `rerankResults` runs between
deduplication and truncation and permutes the deduplicated list. -/
theorem claim_C4_pipeline (backend : Backend) (options : RetrievalOptions) :
    retrieveContext backend false options =
      (rerankResults options.query
        (removeDuplicateResults (combinedResults backend options))).take
          (options.topK.getD 3) ∧
    (∃ t, rerankResults options.query
          (removeDuplicateResults (combinedResults backend options)) =
        retrieveContext backend false options ++ t) ∧
    (rerankResults options.query
        (removeDuplicateResults (combinedResults backend options))).Perm
      (removeDuplicateResults (combinedResults backend options)) := by
  refine ⟨retrieveContext_success backend options,
    ⟨(rerankResults options.query
        (removeDuplicateResults (combinedResults backend options))).drop
          (options.topK.getD 3), ?_⟩,
    rerank_perm _ _⟩
  rw [retrieveContext_success]
  exact (List.take_append_drop _ _).symm

/-! ### Claim C5 -/

/-- Membership in the dedup loop: a result survives iff it occurs at a
position before which no element shares its key, and its key is not in the
initial `seen` set. -/
theorem mem_removeDupAux (l : List RetrievalResult) :
    ∀ (seen : List String) (r : RetrievalResult),
      r ∈ removeDupAux seen l ↔
        ∃ l1 l2, l = l1 ++ r :: l2 ∧ duplicateKey r ∉ seen ∧
          ∀ x ∈ l1, duplicateKey x ≠ duplicateKey r := by
  induction l with
  | nil =>
    intro seen r
    constructor
    · intro h
      cases h
    · rintro ⟨l1, l2, h, -, -⟩
      exact absurd h (by simp)
  | cons a l ih =>
    intro seen r
    rw [removeDupAux]
    by_cases ha : duplicateKey a ∈ seen
    · rw [if_pos ha, ih]
      constructor
      · rintro ⟨l1, l2, rfl, hr, hl1⟩
        refine ⟨a :: l1, l2, rfl, hr, ?_⟩
        intro x hx
        rcases List.mem_cons.mp hx with rfl | hx
        · exact fun he => hr (he ▸ ha)
        · exact hl1 x hx
      · rintro ⟨l1, l2, heq, hr, hl1⟩
        cases l1 with
        | nil =>
          simp only [List.nil_append] at heq
          injection heq with h1 h2
          subst h1
          exact absurd ha hr
        | cons b l1t =>
          simp only [List.cons_append] at heq
          injection heq with h1 h2
          subst h1
          exact ⟨l1t, l2, h2, hr, fun x hx => hl1 x (List.mem_cons_of_mem _ hx)⟩
    · rw [if_neg ha]
      simp only [List.mem_cons, ih]
      constructor
      · rintro (rfl | ⟨l1, l2, rfl, hr, hl1⟩)
        · exact ⟨[], l, rfl, ha, by simp⟩
        · have hrk : duplicateKey r ∉ seen := fun h => hr (Or.inr h)
          have hna : duplicateKey r ≠ duplicateKey a := fun h => hr (Or.inl h)
          refine ⟨a :: l1, l2, rfl, hrk, ?_⟩
          intro x hx
          rcases List.mem_cons.mp hx with rfl | hx
          · exact fun he => hna he.symm
          · exact hl1 x hx
      · rintro ⟨l1, l2, heq, hr, hl1⟩
        cases l1 with
        | nil =>
          simp only [List.nil_append] at heq
          injection heq with h1 h2
          exact Or.inl h1.symm
        | cons b l1t =>
          simp only [List.cons_append] at heq
          injection heq with h1 h2
          subst h1
          refine Or.inr ⟨l1t, l2, h2, ?_, fun x hx => hl1 x (List.mem_cons_of_mem _ hx)⟩
          rintro (he | hmem2)
          · exact hl1 a (List.mem_cons_self _ _) he.symm
          · exact hr hmem2

/-- The dedup loop yields pairwise-distinct keys. -/
theorem removeDupAux_pairwise (l : List RetrievalResult) :
    ∀ seen : List String,
      (removeDupAux seen l).Pairwise fun a b => duplicateKey a ≠ duplicateKey b := by
  induction l with
  | nil => intro seen; exact List.Pairwise.nil
  | cons a l ih =>
    intro seen
    rw [removeDupAux]
    by_cases ha : duplicateKey a ∈ seen
    · rw [if_pos ha]
      exact ih seen
    · rw [if_neg ha]
      refine List.Pairwise.cons ?_ (ih _)
      intro b hb
      rcases (mem_removeDupAux l _ b).mp hb with ⟨l1, l2, -, hbk, -⟩
      exact fun he => hbk (he ▸ List.mem_cons_self _ _)

set_option maxRecDepth 1000000 in
unseal Rat.mul Rat.inv Rat.add Rat.sub Rat.ofScientific in
/-- Counterexample to C5 as stated: two results whose keys in the claim's
order of operations (trim, lower-case, then first 100 characters) coincide
both survive into `retrieveContext`'s output, because the source computes
the key by slicing to 100 characters *first* and only then trimming. -/
theorem claim_C5_counterexample :
    specDuplicateKey cex5ResultA = specDuplicateKey cex5ResultB ∧
      cex5ResultA ≠ cex5ResultB ∧
      cex5ResultA ∈ retrieveContext cex5Backend false { query := "zz" } ∧
      cex5ResultB ∈ retrieveContext cex5Backend false { query := "zz" } := by
  refine ⟨by decide, by decide, by decide, by decide⟩

/-- Claim C5 amended: the duplicate key is
`content.slice(0, 100).trim().toLowerCase()` — slice first, then trim and
lower-case.  A result survives deduplication exactly when no earlier element
of the combined list shares its key (first occurrence wins), every element
of `retrieveContext`'s non-exceptional output comes from the deduplicated
combined list, and that output never carries two results with the same key. -/
theorem claim_C5_dedup_first_occurrence :
    (∀ (l : List RetrievalResult) (r : RetrievalResult),
      r ∈ removeDuplicateResults l ↔
        ∃ l1 l2, l = l1 ++ r :: l2 ∧ ∀ x ∈ l1, duplicateKey x ≠ duplicateKey r) ∧
    (∀ (backend : Backend) (options : RetrievalOptions) (r : RetrievalResult),
      r ∈ retrieveContext backend false options →
        r ∈ removeDuplicateResults (combinedResults backend options)) ∧
    (∀ (backend : Backend) (options : RetrievalOptions),
      (retrieveContext backend false options).Pairwise
        fun a b => duplicateKey a ≠ duplicateKey b) := by
  refine ⟨?_, ?_, ?_⟩
  · intro l r
    rw [removeDuplicateResults, mem_removeDupAux]
    constructor
    · rintro ⟨l1, l2, heq, -, hl1⟩
      exact ⟨l1, l2, heq, hl1⟩
    · rintro ⟨l1, l2, heq, hl1⟩
      exact ⟨l1, l2, heq, List.not_mem_nil _, hl1⟩
  · intro backend options r hr
    rw [retrieveContext_success] at hr
    exact ((rerank_perm _ _).mem_iff).mp (List.take_subset _ _ hr)
  · intro backend options
    have hd := removeDupAux_pairwise (combinedResults backend options) []
    have hp : (rerankResults options.query
        (removeDuplicateResults (combinedResults backend options))).Pairwise
          (fun a b => duplicateKey a ≠ duplicateKey b) :=
      ((rerank_perm _ _).pairwise_iff fun h => h.symm).mpr hd
    rw [retrieveContext_success]
    exact List.Pairwise.sublist (List.take_sublist _ _) hp

/-- Witness for C5 amended: a singleton list keeps its element, via the
first-occurrence characterisation. -/
theorem claim_C5_dedup_first_occurrence_witness :
    ({ content := "w" } : RetrievalResult) ∈
      removeDuplicateResults [{ content := "w" }] :=
  (claim_C5_dedup_first_occurrence.1 [{ content := "w" }] { content := "w" }).mpr
    ⟨[], [], rfl, by simp⟩

/-! ### Claim C6 -/

/-- The rerank comparator preorder is total. -/
instance sortLE_isTotal (query : String) : IsTotal RetrievalResult (sortLE query) := by
  constructor
  intro a b
  unfold sortLE
  cases ha : containsQuery query a <;> cases hb : containsQuery query b <;> simp <;>
    exact le_total _ _

/-- The rerank comparator preorder is transitive. -/
instance sortLE_isTrans (query : String) : IsTrans RetrievalResult (sortLE query) := by
  constructor
  intro a b c hab hbc
  rcases hab with ⟨ha, hb⟩ | ⟨hab, hs1⟩
  · rcases hbc with ⟨hb2, -⟩ | ⟨hbc, -⟩
    · rw [hb] at hb2
      cases hb2
    · exact Or.inl ⟨ha, hbc.symm.trans hb⟩
  · rcases hbc with ⟨hb2, hc⟩ | ⟨hbc, hs2⟩
    · exact Or.inl ⟨hab.trans hb2, hc⟩
    · exact Or.inr ⟨hab.trans hbc, hs2.trans hs1⟩

/-- Results in the same rerank class are related by the comparator preorder. -/
theorem rerankClass_eq_sortLE (query : String) {a b : RetrievalResult}
    (h : rerankClass query a = rerankClass query b) : sortLE query a b := by
  unfold rerankClass at h
  injection h with h1 h2
  exact Or.inr ⟨h1, h2.ge⟩

/-- Inserting into a list adds the new element in front of its own rerank
class and leaves every class's sublist otherwise unchanged. -/
theorem filter_orderedInsert_class (query : String) (c : Bool × ℚ) (a : RetrievalResult) :
    ∀ l : List RetrievalResult,
      (List.orderedInsert (sortLE query) a l).filter
          (fun r => decide (rerankClass query r = c)) =
        if rerankClass query a = c then
          a :: l.filter (fun r => decide (rerankClass query r = c))
        else l.filter (fun r => decide (rerankClass query r = c)) := by
  intro l
  induction l with
  | nil =>
    simp only [List.orderedInsert, List.filter_cons, List.filter_nil]
    by_cases h : rerankClass query a = c
    · rw [if_pos (by simp [h]), if_pos h]
    · rw [if_neg (by simp [h]), if_neg h]
  | cons b l ih =>
    rw [List.orderedInsert]
    by_cases hab : sortLE query a b
    · rw [if_pos hab, List.filter_cons, List.filter_cons]
      by_cases h : rerankClass query a = c
      · rw [if_pos (by simp [h]), if_pos h]
      · rw [if_neg (by simp [h]), if_neg h]
    · rw [if_neg hab, List.filter_cons, List.filter_cons, ih]
      by_cases hb : rerankClass query b = c <;> by_cases h : rerankClass query a = c
      · exact absurd (rerankClass_eq_sortLE query (h.trans hb.symm)) hab
      · simp [hb, h]
      · simp [hb, h]
      · simp [hb, h]

/-- Insertion sort by the rerank comparator preserves each rerank class's
sublist: the sort is stable. -/
theorem filter_insertionSort_class (query : String) (c : Bool × ℚ) :
    ∀ l : List RetrievalResult,
      (List.insertionSort (sortLE query) l).filter
          (fun r => decide (rerankClass query r = c)) =
        l.filter (fun r => decide (rerankClass query r = c)) := by
  intro l
  induction l with
  | nil => rfl
  | cons a l ih =>
    simp only [List.insertionSort]
    rw [filter_orderedInsert_class, ih, List.filter_cons]
    by_cases h : rerankClass query a = c
    · rw [if_pos h, if_pos (by simp [h])]
    · rw [if_neg h, if_neg (by simp [h])]

/-- Claim C6: `rerankResults` permutes its input into an order where every
result containing the query comes before every result not containing it
and, within equal containment, scores are non-increasing (a missing score
counting as 0); elements of the same class keep their input order, making
the reordering stable. -/
theorem claim_C6_rerank_stable_sort (query : String) (results : List RetrievalResult) :
    (rerankResults query results).Perm results ∧
    (rerankResults query results).Pairwise (fun a b =>
      (containsQuery query b = true → containsQuery query a = true) ∧
      (containsQuery query a = containsQuery query b → scoreOf b ≤ scoreOf a)) ∧
    (∀ c : Bool × ℚ,
      (rerankResults query results).filter (fun r => decide (rerankClass query r = c)) =
        results.filter (fun r => decide (rerankClass query r = c))) := by
  refine ⟨rerank_perm query results, ?_, ?_⟩
  · unfold rerankResults
    split
    · rename_i h
      match results, h with
      | [], _ => exact List.Pairwise.nil
      | [a], _ => exact List.pairwise_singleton _ _
      | a :: b :: l, h => simp at h
    · have hs := List.sorted_insertionSort (sortLE query) results
      refine hs.imp ?_
      intro a b hab
      rcases hab with ⟨ha, hb⟩ | ⟨hab, hs2⟩
      · refine ⟨fun _ => ha, fun he => ?_⟩
        cases (ha.symm.trans he).trans hb
      · exact ⟨fun hbt => hab.trans hbt, fun _ => hs2⟩
  · intro c
    unfold rerankResults
    split
    · rfl
    · exact filter_insertionSort_class query c results

/-! ### Claim C7 -/

/-- When a result carries full metadata (nonempty source and date) and a
score, the source's rendering coincides with the claim's rendering. -/
theorem formatDoc_spec (index : Nat) (r : RetrievalResult) (s d : String) (sc : ℚ)
    (hm : r.metadata = some { source := some s, date := some d })
    (hs : s ≠ "") (hd : d ≠ "") (hsc : r.score = some sc) :
    formatDoc index r = specRenderDoc index r := by
  unfold formatDoc specRenderDoc
  rw [hm, hsc]
  simp [strOr, hs, hd, String.append_assoc]

/-- The indexed rendering maps agree on lists of fully-populated results. -/
theorem formatDocsFrom_spec (l : List RetrievalResult)
    (hall : ∀ r ∈ l, ∃ s d sc,
      r.metadata = some { source := some s, date := some d } ∧
        s ≠ "" ∧ d ≠ "" ∧ r.score = some sc) :
    ∀ index, formatDocsFrom index l = specRenderFrom index l := by
  induction l with
  | nil => intro index; rfl
  | cons a l ih =>
    intro index
    rcases hall a (List.mem_cons_self _ _) with ⟨s, d, sc, hm, hs, hd, hsc⟩
    rw [formatDocsFrom, specRenderFrom, formatDoc_spec index a s d sc hm hs hd hsc,
      ih (fun r hr => hall r (List.mem_cons_of_mem _ hr)) (index + 1)]

/-- Counterexample to C7 as stated: a result without a metadata bag renders
with no "Source" line and no "Relevance" line at all. -/
theorem claim_C7_counterexample :
    formatRetrievedContext [{ content := "x" }] = "[Document 1]:\nx" ∧
      containsStr "[Document 1]:\nx" "\nSource: " = false ∧
      containsStr "[Document 1]:\nx" "Relevance: " = false := by
  refine ⟨by decide, by decide, by decide⟩

/-- Claim C7 amended: `formatRetrievedContext` returns the empty string on
the empty list, and renders results in order as "[Document N]:", content,
"Source: <source> (<date>)" line and "Relevance: <round(score*100)>%" line,
joined by blank lines, provided every result carries a metadata bag with
nonempty source and date and carries a score; the source, date and
relevance lines are omitted when those fields are absent. -/
theorem claim_C7_formatting (results : List RetrievalResult) :
    formatRetrievedContext [] = "" ∧
    ((∀ r ∈ results, ∃ s d sc,
        r.metadata = some { source := some s, date := some d } ∧
          s ≠ "" ∧ d ≠ "" ∧ r.score = some sc) →
      formatRetrievedContext results = joinSep "\n\n" (specRenderFrom 0 results)) := by
  refine ⟨rfl, ?_⟩
  intro hall
  unfold formatRetrievedContext
  split
  · rename_i h
    subst h
    rfl
  · rw [formatDocsFrom_spec results hall 0]

/-- Witness for C7 amended at a concrete fully-populated result. -/
theorem claim_C7_formatting_witness :
    formatRetrievedContext [c7WitnessResult] =
      joinSep "\n\n" (specRenderFrom 0 [c7WitnessResult]) :=
  (claim_C7_formatting [c7WitnessResult]).2 (by
    intro r hr
    rcases List.mem_singleton.mp hr with rfl
    exact ⟨"Doc Source", "2024-01-01", 0.75, rfl, by decide, by decide, rfl⟩)

/-! ### Claim C8 -/

set_option maxRecDepth 1000000 in
unseal Rat.mul Rat.inv Rat.add Rat.sub Rat.ofScientific in
/-- Counterexample to C8 as stated: with the backend unavailable, the query
"what is RAG?" does not retrieve exactly the fallback entries whose source
contains "RAG" — the second returned entry has source "AI Best Practices
Guide", which does not contain "rag" case-insensitively (the mock filter
keeps every entry because the query itself contains "rag", then cuts to 3). -/
theorem claim_C8_counterexample :
    ((retrieveContext (fun _ _ _ _ => none) false { query := "what is RAG?" }).map
        fun r => r.metadata.bind Metadata.source) =
      [some "RAG Documentation", some "AI Best Practices Guide",
        some "RAG Architecture Guide"] ∧
      containsStr (lowerStr "AI Best Practices Guide") "rag" = false ∧
      (mockKb.filter fun e => containsStr (lowerStr e.source) "rag").length = 6 := by
  refine ⟨by decide, by decide, by decide⟩

set_option maxRecDepth 1000000 in
unseal Rat.mul Rat.inv Rat.add Rat.sub Rat.ofScientific in
/-- Claim C8 amended: with the backend unavailable, `retrieveContext` on
"what is RAG?" returns the first three mock knowledge-base entries (sources
"RAG Documentation", "AI Best Practices Guide", "RAG Architecture Guide"),
and `enhancePromptWithRAG` on that query returns a string containing the
literal substring "RETRIEVED CONTEXT". -/
theorem claim_C8_fallback_behavior :
    ((retrieveContext (fun _ _ _ _ => none) false { query := "what is RAG?" }).map
        fun r => r.metadata.bind Metadata.source) =
      [some "RAG Documentation", some "AI Best Practices Guide",
        some "RAG Architecture Guide"] ∧
      containsStr
        (enhancePromptWithRAG (fun _ _ _ _ => none) false "You are a helpful assistant."
          [{ role := "user", content := some "what is RAG?" }] {} "chat-model")
        "RETRIEVED CONTEXT" = true := by
  refine ⟨by decide, by decide⟩
